import Mathlib

/-!
Verification of the attribute-selector evaluation engine
(`src/apollo-router/src/plugins/telemetry/config_new/selectors.rs`).

The Rust source is shallowly embedded: each selector family becomes an
inductive type whose constructors carry exactly the fields of the Rust
variants; the two capability operations `on_request` / `on_response`
become pure Lean functions.  Ambient process state read by the Rust code
(environment variables, the active span context, baggage) is passed as an
explicit `Ambient` record, mirroring the design note of the spec that the
implicit current-span lookup be made an explicit parameter.  External
collaborators that are not part of this repository (the `sha2` digest, the
`hex` encoder, trace-id rendering, the HTTP status reason table, JSON
serialization and the scalar conversion of `AttributeValue`) are modelled
per their documented behaviour; the SHA-256 digest is implemented in full
so that the repository's own test vectors validate the embedding.
Machine integers are `Nat` with explicit reduction modulo `2 ^ w`.
-/

/-! ## Generic helpers -/

/-- First-match association-list lookup: the lookup shape shared by header
maps, variable maps, context maps, baggage and the process environment. -/
def lookupFst {α : Type} (l : List (String × α)) (k : String) : Option α :=
  match l with
  | [] => none
  | (k2, v) :: t => if k2 = k then some v else lookupFst t k

/-- Rust's `Option::or_else(|| default.clone())`: keep a found value,
otherwise use the (optional) default. -/
def orDefault {α : Type} (o : Option α) (d : Option α) : Option α :=
  match o with
  | some v => some v
  | none => d

/-! ## Lowercase hexadecimal rendering

Models the `hex` crate's `encode` (lowercase) and the OpenTelemetry
`TraceId` `Display` (fixed-width 32 hex digits, zero padded). -/

/-- The sixteen lowercase hexadecimal digit characters. -/
def hexChars : List Char := "0123456789abcdef".data

/-- The lowercase hexadecimal digit for a value below 16. -/
def hexDigit (n : Nat) : Char :=
  if n < 10 then Char.ofNat (48 + n) else Char.ofNat (87 + n)

/-- Fixed-width big-endian hexadecimal rendering of `n`, lowercase,
zero padded on the left to exactly `w` digits. -/
def toHexCore : Nat → Nat → List Char
  | _, 0 => []
  | n, w + 1 => toHexCore (n / 16) w ++ [hexDigit (n % 16)]

/-- Fixed-width lowercase hexadecimal string of `n`, `w` digits. -/
def toHexPad (n w : Nat) : String := String.mk (toHexCore n w)

/-! ## SHA-256 (the `sha2` crate's `Sha256`)

A complete executable implementation of FIPS 180-4 SHA-256 on byte lists,
32-bit words represented as `Nat` reduced modulo `2 ^ 32`. -/

/-- `2 ^ 32`, the modulus of 32-bit word arithmetic. -/
def M32 : Nat := 4294967296

/-- 32-bit right rotation. -/
def rotr (r x : Nat) : Nat := ((x >>> r) ||| (x <<< (32 - r))) % M32

/-- SHA-256 `Ch` function. -/
def shaCh (x y z : Nat) : Nat := (x &&& y) ^^^ ((x ^^^ 4294967295) &&& z)

/-- SHA-256 `Maj` function. -/
def shaMaj (x y z : Nat) : Nat := (x &&& y) ^^^ (x &&& z) ^^^ (y &&& z)

/-- SHA-256 `Σ0`. -/
def bigSigma0 (x : Nat) : Nat := rotr 2 x ^^^ rotr 13 x ^^^ rotr 22 x

/-- SHA-256 `Σ1`. -/
def bigSigma1 (x : Nat) : Nat := rotr 6 x ^^^ rotr 11 x ^^^ rotr 25 x

/-- SHA-256 `σ0`. -/
def smallSigma0 (x : Nat) : Nat := rotr 7 x ^^^ rotr 18 x ^^^ (x >>> 3)

/-- SHA-256 `σ1`. -/
def smallSigma1 (x : Nat) : Nat := rotr 17 x ^^^ rotr 19 x ^^^ (x >>> 10)

/-- The 64 SHA-256 round constants. -/
def sha256K : List Nat :=
  [1116352408, 1899447441, 3049323471, 3921009573,
   961987163, 1508970993, 2453635748, 2870763221,
   3624381080, 310598401, 607225278, 1426881987,
   1925078388, 2162078206, 2614888103, 3248222580,
   3835390401, 4022224774, 264347078, 604807628,
   770255983, 1249150122, 1555081692, 1996064986,
   2554220882, 2821834349, 2952996808, 3210313671,
   3336571891, 3584528711, 113926993, 338241895,
   666307205, 773529912, 1294757372, 1396182291,
   1695183700, 1986661051, 2177026350, 2456956037,
   2730485921, 2820302411, 3259730800, 3345764771,
   3516065817, 3600352804, 4094571909, 275423344,
   430227734, 506948616, 659060556, 883997877,
   958139571, 1322822218, 1537002063, 1747873779,
   1955562222, 2024104815, 2227730452, 2361852424,
   2428436474, 2756734187, 3204031479, 3329325298]

/-- The eight 32-bit working variables of the SHA-256 compression state. -/
structure Sha256State where
  a : Nat
  b : Nat
  c : Nat
  d : Nat
  e : Nat
  f : Nat
  g : Nat
  hh : Nat

/-- The SHA-256 initial hash value. -/
def sha256Init : Sha256State :=
  ⟨1779033703, 3144134277, 1013904242, 2773480762,
   1359893119, 2600822924, 528734635, 1541459225⟩

/-- One SHA-256 round: fold one `(w, k)` pair into the state. -/
def sha256Round (st : Sha256State) (wk : Nat × Nat) : Sha256State :=
  let t1 := (st.hh + bigSigma1 st.e + shaCh st.e st.f st.g + wk.2 + wk.1) % M32
  let t2 := (bigSigma0 st.a + shaMaj st.a st.b st.c) % M32
  ⟨(t1 + t2) % M32, st.a, st.b, st.c, (st.d + t1) % M32, st.e, st.f, st.g⟩

/-- Extend the 16-word message block by `k` further schedule words. -/
def extendSchedule : Nat → List Nat → List Nat
  | 0, ws => ws
  | k + 1, ws =>
      let n := ws.length
      let w := (smallSigma1 (ws.getD (n - 2) 0) + ws.getD (n - 7) 0 +
                smallSigma0 (ws.getD (n - 15) 0) + ws.getD (n - 16) 0) % M32
      extendSchedule k (ws ++ [w])

/-- Process one 16-word message block. -/
def sha256Block (st0 : Sha256State) (block : List Nat) : Sha256State :=
  let ws := extendSchedule 48 block
  let st := (ws.zip sha256K).foldl sha256Round st0
  ⟨(st0.a + st.a) % M32, (st0.b + st.b) % M32, (st0.c + st.c) % M32,
   (st0.d + st.d) % M32, (st0.e + st.e) % M32, (st0.f + st.f) % M32,
   (st0.g + st.g) % M32, (st0.hh + st.hh) % M32⟩

/-- Big-endian byte rendering of `n`, exactly `w` bytes. -/
def beBytes : Nat → Nat → List Nat
  | 0, _ => []
  | w + 1, n => beBytes w (n / 256) ++ [n % 256]

/-- SHA-256 padding: append `0x80`, zero bytes to 56 mod 64, then the
64-bit big-endian bit length. -/
def sha256Pad (msg : List Nat) : List Nat :=
  let l := msg.length
  let zeros := (64 + 56 - (l + 1) % 64) % 64
  msg ++ [0x80] ++ List.replicate zeros 0 ++ beBytes 8 (8 * l)

/-- Group a byte list into big-endian 32-bit words. -/
def bytesToWords : List Nat → List Nat
  | b0 :: b1 :: b2 :: b3 :: t =>
      (b0 * 16777216 + b1 * 65536 + b2 * 256 + b3) :: bytesToWords t
  | _ => []

/-- The final SHA-256 state over a byte message. -/
def sha256 (msg : List Nat) : Sha256State :=
  let ws := bytesToWords (sha256Pad msg)
  let nblocks := ws.length / 16
  (List.range nblocks).foldl
    (fun st i => sha256Block st ((ws.drop (16 * i)).take 16)) sha256Init

/-- The lowercase hexadecimal encoding of the 32 digest bytes
(`hex::encode` of the big-endian serialization of the eight state words);
the explicit reductions modulo `2 ^ 32` record that the words are 32-bit
machine integers. -/
def digestHex (st : Sha256State) : String :=
  String.mk (toHexCore (st.a % M32) 8 ++ toHexCore (st.b % M32) 8 ++
             toHexCore (st.c % M32) 8 ++ toHexCore (st.d % M32) 8 ++
             toHexCore (st.e % M32) 8 ++ toHexCore (st.f % M32) 8 ++
             toHexCore (st.g % M32) 8 ++ toHexCore (st.hh % M32) 8)

/-- UTF-8 encoding of one character (Rust `str::as_bytes` per character). -/
def utf8Char (c : Char) : List Nat :=
  let n := c.toNat
  if n < 128 then [n]
  else if n < 2048 then [192 ||| (n >>> 6), 128 ||| (n &&& 63)]
  else if n < 65536 then
    [224 ||| (n >>> 12), 128 ||| ((n >>> 6) &&& 63), 128 ||| (n &&& 63)]
  else
    [240 ||| (n >>> 18), 128 ||| ((n >>> 12) &&& 63),
     128 ||| ((n >>> 6) &&& 63), 128 ||| (n &&& 63)]

/-- UTF-8 byte encoding of a string (Rust `str::as_bytes`). -/
def utf8Encode (s : String) : List Nat :=
  s.data.foldr (fun c acc => utf8Char c ++ acc) []

/-- The operation-name hashing transform of the source:
`hex::encode(Sha256::digest(op_name.as_bytes()))`. -/
def sha256Hex (s : String) : String := digestHex (sha256 (utf8Encode s))

/-! ## JSON values and serialization

`serde_json` values restricted to the shapes the engine touches; numbers
are modelled as integers (no property below involves floating point). -/

/-- A JSON value (`serde_json::Value` / `serde_json_bytes::Value`). -/
inductive Json where
  | null : Json
  | bool : Bool → Json
  | num : Int → Json
  | str : String → Json
  | arr : List Json → Json
  | obj : List (String × Json) → Json

/-- JSON string escaping (`serde_json` compact form): escape the quote,
the backslash, and control characters. -/
def jsonEscapeChar (c : Char) : List Char :=
  if c = '"' then ['\\', '"']
  else if c = '\\' then ['\\', '\\']
  else if c = Char.ofNat 8 then ['\\', 'b']
  else if c = Char.ofNat 9 then ['\\', 't']
  else if c = Char.ofNat 10 then ['\\', 'n']
  else if c = Char.ofNat 12 then ['\\', 'f']
  else if c = Char.ofNat 13 then ['\\', 'r']
  else if c.toNat < 32 then
    '\\' :: 'u' :: toHexCore c.toNat 4
  else [c]

/-- A JSON string literal, quotes included (`serde_json::to_string` on a
string value). -/
def jsonQuote (s : String) : String :=
  String.mk ('"' :: s.data.foldr (fun c acc => jsonEscapeChar c ++ acc) ['"'])

mutual

/-- Compact canonical serialization (`serde_json::to_string`). -/
def jsonToString : Json → String
  | .null => "null"
  | .bool true => "true"
  | .bool false => "false"
  | .num n => toString n
  | .str s => jsonQuote s
  | .arr xs => "[" ++ jsonArrToString xs ++ "]"
  | .obj fs => "\x7b" ++ jsonObjToString fs ++ "\x7d"

/-- Comma-separated serialization of array elements. -/
def jsonArrToString : List Json → String
  | [] => ""
  | [x] => jsonToString x
  | x :: y :: t => jsonToString x ++ "," ++ jsonArrToString (y :: t)

/-- Comma-separated serialization of object members. -/
def jsonObjToString : List (String × Json) → String
  | [] => ""
  | [(k, v)] => jsonQuote k ++ ":" ++ jsonToString v
  | (k, v) :: m :: t =>
      jsonQuote k ++ ":" ++ jsonToString v ++ "," ++ jsonObjToString (m :: t)

end

/-! ## The value model -/

/-- `AttributeValue` (telemetry config value model): a closed union of the
scalar kinds the selectors produce.  Modelled from the spec: the `Float`
kind of the union is omitted because floating point is outside this
embedding and no property below involves it. -/
inductive AttributeValue where
  | String : String → AttributeValue
  | I64 : Int → AttributeValue
  | U128 : Nat → AttributeValue
  | Bool : Bool → AttributeValue
deriving DecidableEq

/-- Modelled from the spec: the fallible conversion
`AttributeValue::try_from` on a JSON value, which succeeds exactly on
scalar JSON (string, boolean, number) and fails on non-scalar or
non-convertible JSON (`null`, arrays, objects). -/
def attrOfJsonScalar : Json → Option AttributeValue
  | .str s => some (AttributeValue.String s)
  | .bool b => some (AttributeValue.Bool b)
  | .num n => some (AttributeValue.I64 n)
  | _ => none

/-! ## Pipeline objects and ambient state -/

/-- An HTTP header value; `toStr` is `HeaderValue::to_str().ok()` — `some`
exactly when the raw bytes are visible ASCII text. -/
structure HeaderValue where
  toStr : Option String

/-- A header collection; lookup returns the first value whose (canonical)
name equals the key. -/
def Headers : Type := List (String × HeaderValue)

/-- The request/response-scoped context map: string keys bound to JSON
values (`crate::context::Context`). -/
def Ctx : Type := List (String × Json)

/-- `context.get::<String>(key).ok().flatten()`: a stored JSON string
deserializes to itself; a missing key gives `Ok(None)` and a stored value
of another shape gives a deserialization error — both normalize to
absent. -/
def ctxGetString (ctx : Ctx) (k : String) : Option String :=
  match lookupFst ctx k with
  | some (.str s) => some s
  | _ => none

/-- `context.get::<AttributeValue>(key).ok().flatten()`: scalar JSON
deserializes to the matching value kind, a missing key or a non-scalar
value normalizes to absent. -/
def ctxGetAttr (ctx : Ctx) (k : String) : Option AttributeValue :=
  match lookupFst ctx k with
  | some j => attrOfJsonScalar j
  | none => none

/-- Header lookup followed by the text conversion used at every header
arm: `headers().get(name).and_then(|h| Some(String(h.to_str().ok()?)))`. -/
def headerAttr (hs : Headers) (k : String) : Option AttributeValue :=
  match lookupFst hs k with
  | some hv => hv.toStr.map AttributeValue.String
  | none => none

/-- The ambient read-only state the evaluators consult besides the
pipeline object: the process environment, the active span context
(validity flag plus 128-bit trace identifier) and the active baggage.
Baggage entries already carry their `AttributeValue::from` conversion. -/
structure Ambient where
  env : List (String × String)
  span_valid : Bool
  span_trace_id : Nat
  baggage : List (String × AttributeValue)

/-- The context keys `OPERATION_NAME` declared in `crate::context`
(declaration outside this excerpt; the key string is opaque to the
evaluation logic). -/
def OPERATION_NAME : String := "operation_name"

/-- The context key `OPERATION_KIND` declared in `crate::context`. -/
def OPERATION_KIND : String := "operation_kind"

/-- A GraphQL request body (`crate::graphql::Request`): query text,
operation name and the variable map (the source field named `variables`,
renamed here because that word is a reserved command). -/
structure GraphqlRequest where
  query : Option String
  operation_name : Option String
  vars : List (String × Json)

/-- The execution-pipeline operation kind
(`crate::query_planner::OperationKind`). -/
inductive OperationKindValue where
  | query
  | mutation
  | subscription
deriving DecidableEq

/-- `OperationKind::as_apollo_operation_type().to_string()` (collaborator
outside this excerpt): the lowercase kind name. -/
def OperationKindValue.asApolloOperationTypeString : OperationKindValue → String
  | .query => "query"
  | .mutation => "mutation"
  | .subscription => "subscription"

/-- `router::Request`: the edge HTTP request plus the context map. -/
structure RouterRequest where
  headers : Headers
  context : Ctx

/-- `router::Response`: the edge HTTP response (headers, status) plus the
context map. -/
structure RouterResponse where
  headers : Headers
  status : Nat
  context : Ctx

/-- `supergraph::Request`: the supergraph HTTP request (headers and
GraphQL body) plus the context map. -/
structure SupergraphRequest where
  headers : Headers
  body : GraphqlRequest
  context : Ctx

/-- `supergraph::Response`: the supergraph HTTP response headers plus the
context map. -/
structure SupergraphResponse where
  headers : Headers
  context : Ctx

/-- `subgraph::Request`: the subgraph HTTP request (headers and GraphQL
body), the originating supergraph request (headers and body), the
operation kind and the context map. -/
structure SubgraphRequest where
  subgraph_headers : Headers
  subgraph_body : GraphqlRequest
  supergraph_headers : Headers
  supergraph_body : GraphqlRequest
  operation_kind : OperationKindValue
  context : Ctx

/-- `subgraph::Response`: the subgraph HTTP response (headers, status and
GraphQL JSON body) plus the context map. -/
structure SubgraphResponse where
  headers : Headers
  status : Nat
  body : Json
  context : Ctx

/-- Modelled from the spec: the canonical HTTP reason phrases the `http`
collaborator crate provides via `StatusCode::canonical_reason` — the
standard IANA registry phrases; codes without a registered phrase give
`none`.  (Code 418 is not needed by any property below and is omitted.) -/
def canonicalReason (s : Nat) : Option String :=
  match s with
  | 100 => some "Continue"
  | 101 => some "Switching Protocols"
  | 102 => some "Processing"
  | 200 => some "OK"
  | 201 => some "Created"
  | 202 => some "Accepted"
  | 203 => some "Non Authoritative Information"
  | 204 => some "No Content"
  | 205 => some "Reset Content"
  | 206 => some "Partial Content"
  | 207 => some "Multi-Status"
  | 208 => some "Already Reported"
  | 226 => some "IM Used"
  | 300 => some "Multiple Choices"
  | 301 => some "Moved Permanently"
  | 302 => some "Found"
  | 303 => some "See Other"
  | 304 => some "Not Modified"
  | 305 => some "Use Proxy"
  | 307 => some "Temporary Redirect"
  | 308 => some "Permanent Redirect"
  | 400 => some "Bad Request"
  | 401 => some "Unauthorized"
  | 402 => some "Payment Required"
  | 403 => some "Forbidden"
  | 404 => some "Not Found"
  | 405 => some "Method Not Allowed"
  | 406 => some "Not Acceptable"
  | 407 => some "Proxy Authentication Required"
  | 408 => some "Request Timeout"
  | 409 => some "Conflict"
  | 410 => some "Gone"
  | 411 => some "Length Required"
  | 412 => some "Precondition Failed"
  | 413 => some "Payload Too Large"
  | 414 => some "URI Too Long"
  | 415 => some "Unsupported Media Type"
  | 416 => some "Range Not Satisfiable"
  | 417 => some "Expectation Failed"
  | 421 => some "Misdirected Request"
  | 422 => some "Unprocessable Entity"
  | 423 => some "Locked"
  | 424 => some "Failed Dependency"
  | 426 => some "Upgrade Required"
  | 428 => some "Precondition Required"
  | 429 => some "Too Many Requests"
  | 431 => some "Request Header Fields Too Large"
  | 451 => some "Unavailable For Legal Reasons"
  | 500 => some "Internal Server Error"
  | 501 => some "Not Implemented"
  | 502 => some "Bad Gateway"
  | 503 => some "Service Unavailable"
  | 504 => some "Gateway Timeout"
  | 505 => some "HTTP Version Not Supported"
  | 506 => some "Variant Also Negotiates"
  | 507 => some "Insufficient Storage"
  | 508 => some "Loop Detected"
  | 510 => some "Not Extended"
  | 511 => some "Network Authentication Required"
  | _ => none

/-! ## The selector configuration language

One constructor per Rust variant, carrying exactly the variant's fields
(source key, optional `redact` pattern, optional typed `default`). -/

/-- `TraceIdFormat`: how a trace id selector renders the identifier. -/
inductive TraceIdFormat where
  | OpenTelemetry
  | Datadog
deriving DecidableEq

/-- `OperationName`: raw string mode or hash mode. -/
inductive OperationName where
  | String
  | Hash
deriving DecidableEq

/-- `Query`: the single raw-text mode. -/
inductive QueryMode where
  | String
deriving DecidableEq

/-- `OperationKind`: the single raw-text mode. -/
inductive OperationKindMode where
  | String
deriving DecidableEq

/-- `ResponseStatus`: numeric code or textual reason. -/
inductive ResponseStatusMode where
  | Code
  | Reason
deriving DecidableEq

/-- `RouterSelector`: the edge-tier selector family. -/
inductive RouterSelector where
  | RequestHeader (request_header : String) (redact : Option String)
      (default : Option AttributeValue)
  | ResponseHeader (response_header : String) (redact : Option String)
      (default : Option AttributeValue)
  | ResponseStatus (response_status : ResponseStatusMode)
  | TraceId (trace_id : TraceIdFormat)
  | ResponseContext (response_context : String) (redact : Option String)
      (default : Option AttributeValue)
  | Baggage (baggage : String) (redact : Option String)
      (default : Option AttributeValue)
  | Env (env : String) (redact : Option String) (default : Option String)

/-- `SupergraphSelector`: the query-tier selector family. -/
inductive SupergraphSelector where
  | OperationName (operation_name : OperationName) (redact : Option String)
      (default : Option String)
  | OperationKind (operation_kind : OperationKindMode)
  | Query (query : QueryMode) (redact : Option String)
      (default : Option String)
  | QueryVariable (query_variable : String) (redact : Option String)
      (default : Option AttributeValue)
  | RequestHeader (request_header : String) (redact : Option String)
      (default : Option AttributeValue)
  | ResponseHeader (response_header : String) (redact : Option String)
      (default : Option AttributeValue)
  | RequestContext (request_context : String) (redact : Option String)
      (default : Option AttributeValue)
  | ResponseContext (response_context : String) (redact : Option String)
      (default : Option AttributeValue)
  | Baggage (baggage : String) (redact : Option String)
      (default : Option AttributeValue)
  | Env (env : String) (redact : Option String) (default : Option String)

/-- `SubgraphSelector`: the subgraph-tier selector family.  The JSON-path
query of `SubgraphResponseBody` is the black-box `JSONQuery` capability:
`execute(body) -> Result<Option<Json>, Error>`, embedded as a function
into `Except`. -/
inductive SubgraphSelector where
  | SubgraphOperationName (subgraph_operation_name : OperationName)
      (redact : Option String) (default : Option String)
  | SubgraphOperationKind (subgraph_operation_kind : OperationKindMode)
  | SubgraphQuery (subgraph_query : QueryMode) (redact : Option String)
      (default : Option String)
  | SubgraphQueryVariable (subgraph_query_variable : String)
      (redact : Option String) (default : Option AttributeValue)
  | SubgraphResponseBody (subgraph_response_body : Json → Except Unit (Option Json))
      (redact : Option String) (default : Option AttributeValue)
  | SubgraphRequestHeader (subgraph_request_header : String)
      (redact : Option String) (default : Option AttributeValue)
  | SubgraphResponseHeader (subgraph_response_header : String)
      (redact : Option String) (default : Option AttributeValue)
  | SubgraphResponseStatus (subgraph_response_status : ResponseStatusMode)
  | SupergraphOperationName (supergraph_operation_name : OperationName)
      (redact : Option String) (default : Option String)
  | SupergraphOperationKind (supergraph_operation_kind : OperationKindMode)
  | SupergraphQuery (supergraph_query : QueryMode) (redact : Option String)
      (default : Option String)
  | SupergraphQueryVariable (supergraph_query_variable : String)
      (redact : Option String) (default : Option AttributeValue)
  | SupergraphRequestHeader (supergraph_request_header : String)
      (redact : Option String) (default : Option AttributeValue)
  | RequestContext (request_context : String) (redact : Option String)
      (default : Option AttributeValue)
  | ResponseContext (response_context : String) (redact : Option String)
      (default : Option AttributeValue)
  | Baggage (baggage : String) (redact : Option String)
      (default : Option AttributeValue)
  | Env (env : String) (redact : Option String) (default : Option String)

/-! ## The evaluation engine

`impl GetAttribute<..> for ..Selector`, arm for arm.  The ambient state is
the explicit `amb` parameter; every other expression mirrors the source:
header arms are `headers().get(..)` followed by the text conversion and
`or_else(default)`, context arms are `context.get(..).ok().flatten()`
followed by `or_else(default)`, and so on. -/

/-- `RouterSelector::on_request` (selectors.rs lines 368-415). -/
def RouterSelector.on_request (s : RouterSelector) (amb : Ambient)
    (request : RouterRequest) : Option AttributeValue :=
  match s with
  | .RequestHeader request_header _ default =>
      orDefault (headerAttr request.headers request_header) default
  | .Env env _ default =>
      orDefault ((lookupFst amb.env env).map AttributeValue.String)
        (default.map AttributeValue.String)
  | .TraceId trace_id_format =>
      if amb.span_valid then
        some (match trace_id_format with
          | .OpenTelemetry =>
              AttributeValue.String (toHexPad (amb.span_trace_id % 2 ^ 128) 32)
          | .Datadog => AttributeValue.U128 (amb.span_trace_id % 2 ^ 128))
      else none
  | .Baggage baggage_name _ default =>
      match lookupFst amb.baggage baggage_name with
      | some baggage => some baggage
      | none => default
  | _ => none

/-- `RouterSelector::on_response` (selectors.rs lines 417-464). -/
def RouterSelector.on_response (s : RouterSelector) (amb : Ambient)
    (response : RouterResponse) : Option AttributeValue :=
  match s with
  | .ResponseHeader response_header _ default =>
      orDefault (headerAttr response.headers response_header) default
  | .ResponseStatus response_status =>
      match response_status with
      | .Code => some (AttributeValue.I64 (Int.ofNat response.status))
      | .Reason => (canonicalReason response.status).map AttributeValue.String
  | .ResponseContext response_context _ default =>
      orDefault (ctxGetAttr response.context response_context) default
  | .Baggage baggage_name _ default =>
      match lookupFst amb.baggage baggage_name with
      | some baggage => some baggage
      | none => default
  | _ => none

/-- `SupergraphSelector::on_request` (selectors.rs lines 468-549). -/
def SupergraphSelector.on_request (s : SupergraphSelector) (amb : Ambient)
    (request : SupergraphRequest) : Option AttributeValue :=
  match s with
  | .OperationName operation_name _ default =>
      let op_name := ctxGetString request.context OPERATION_NAME
      (match operation_name with
       | .String => orDefault op_name default
       | .Hash => (orDefault op_name default).map sha256Hex).map
        AttributeValue.String
  | .OperationKind _ => ctxGetAttr request.context OPERATION_KIND
  | .Query _ _ default =>
      (orDefault request.body.query default).map AttributeValue.String
  | .QueryVariable query_variable _ default =>
      orDefault ((lookupFst request.body.vars query_variable).map
        (fun v => AttributeValue.String (jsonToString v))) default
  | .RequestHeader request_header _ default =>
      orDefault (headerAttr request.headers request_header) default
  | .RequestContext request_context _ default =>
      orDefault (ctxGetAttr request.context request_context) default
  | .Baggage baggage_name _ default =>
      match lookupFst amb.baggage baggage_name with
      | some baggage => some baggage
      | none => default
  | .Env env _ default =>
      orDefault ((lookupFst amb.env env).map AttributeValue.String)
        (default.map AttributeValue.String)
  | _ => none

/-- `SupergraphSelector::on_response` (selectors.rs lines 551-576). -/
def SupergraphSelector.on_response (s : SupergraphSelector) (_amb : Ambient)
    (response : SupergraphResponse) : Option AttributeValue :=
  match s with
  | .ResponseHeader response_header _ default =>
      orDefault (headerAttr response.headers response_header) default
  | .ResponseContext response_context _ default =>
      orDefault (ctxGetAttr response.context response_context) default
  | _ => none

/-- `SubgraphSelector::on_request` (selectors.rs lines 580-714). -/
def SubgraphSelector.on_request (s : SubgraphSelector) (amb : Ambient)
    (request : SubgraphRequest) : Option AttributeValue :=
  match s with
  | .SubgraphOperationName subgraph_operation_name _ default =>
      let op_name := request.subgraph_body.operation_name
      (match subgraph_operation_name with
       | .String => orDefault op_name default
       | .Hash => (orDefault op_name default).map sha256Hex).map
        AttributeValue.String
  | .SupergraphOperationName supergraph_operation_name _ default =>
      let op_name := ctxGetString request.context OPERATION_NAME
      (match supergraph_operation_name with
       | .String => orDefault op_name default
       | .Hash => (orDefault op_name default).map sha256Hex).map
        AttributeValue.String
  | .SubgraphOperationKind _ =>
      some (AttributeValue.String
        request.operation_kind.asApolloOperationTypeString)
  | .SupergraphOperationKind _ => ctxGetAttr request.context OPERATION_KIND
  | .SupergraphQuery _ _ default =>
      (orDefault request.supergraph_body.query default).map
        AttributeValue.String
  | .SubgraphQuery _ _ default =>
      (orDefault request.subgraph_body.query default).map AttributeValue.String
  | .SubgraphQueryVariable subgraph_query_variable _ default =>
      orDefault ((lookupFst request.subgraph_body.vars
        subgraph_query_variable).map
          (fun v => AttributeValue.String (jsonToString v))) default
  | .SupergraphQueryVariable supergraph_query_variable _ default =>
      orDefault ((lookupFst request.supergraph_body.vars
        supergraph_query_variable).map
          (fun v => AttributeValue.String (jsonToString v))) default
  | .SubgraphRequestHeader subgraph_request_header _ default =>
      orDefault (headerAttr request.subgraph_headers subgraph_request_header)
        default
  | .SupergraphRequestHeader supergraph_request_header _ default =>
      orDefault (headerAttr request.supergraph_headers
        supergraph_request_header) default
  | .RequestContext request_context _ default =>
      orDefault (ctxGetAttr request.context request_context) default
  | .Baggage baggage_name _ default =>
      match lookupFst amb.baggage baggage_name with
      | some baggage => some baggage
      | none => default
  | .Env env _ default =>
      orDefault ((lookupFst amb.env env).map AttributeValue.String)
        (default.map AttributeValue.String)
  | _ => none

/-- `SubgraphSelector::on_response` (selectors.rs lines 716-766).  In the
`SubgraphResponseBody` arm, `execute(body).ok().flatten()?` propagates an
absent output — evaluator error or no match — as an early `None`, and only
a matched value that fails the scalar conversion reaches
`or_else(default)`. -/
def SubgraphSelector.on_response (s : SubgraphSelector) (_amb : Ambient)
    (response : SubgraphResponse) : Option AttributeValue :=
  match s with
  | .SubgraphResponseHeader subgraph_response_header _ default =>
      orDefault (headerAttr response.headers subgraph_response_header) default
  | .SubgraphResponseStatus response_status =>
      match response_status with
      | .Code => some (AttributeValue.I64 (Int.ofNat response.status))
      | .Reason => (canonicalReason response.status).map AttributeValue.String
  | .SubgraphResponseBody subgraph_response_body _ default =>
      match (subgraph_response_body response.body).toOption.join with
      | none => none
      | some output => orDefault (attrOfJsonScalar output) default
  | .ResponseContext response_context _ default =>
      orDefault (ctxGetAttr response.context response_context) default
  | _ => none

/-! ## State-passing form of the evaluators

The Rust operations take `&self` and a shared reference to the pipeline
object and return only the attribute; to make the absence of writes a
provable statement rather than a typing convention, each evaluator is
restated in state-passing form: every arm returns, next to its result,
the pipeline object and ambient state it leaves behind.  Each arm only
reads, so each arm hands its input state back. -/

/-- `RouterSelector::on_request`, state-passing form. -/
def RouterSelector.on_request_st (s : RouterSelector)
    (st : RouterRequest × Ambient) :
    Option AttributeValue × (RouterRequest × Ambient) :=
  match s with
  | .RequestHeader request_header _ default =>
      (orDefault (headerAttr st.1.headers request_header) default, st)
  | .Env env _ default =>
      (orDefault ((lookupFst st.2.env env).map AttributeValue.String)
        (default.map AttributeValue.String), st)
  | .TraceId trace_id_format =>
      (if st.2.span_valid then
        some (match trace_id_format with
          | .OpenTelemetry =>
              AttributeValue.String (toHexPad (st.2.span_trace_id % 2 ^ 128) 32)
          | .Datadog => AttributeValue.U128 (st.2.span_trace_id % 2 ^ 128))
      else none, st)
  | .Baggage baggage_name _ default =>
      (match lookupFst st.2.baggage baggage_name with
       | some baggage => some baggage
       | none => default, st)
  | _ => (none, st)

/-- `RouterSelector::on_response`, state-passing form. -/
def RouterSelector.on_response_st (s : RouterSelector)
    (st : RouterResponse × Ambient) :
    Option AttributeValue × (RouterResponse × Ambient) :=
  match s with
  | .ResponseHeader response_header _ default =>
      (orDefault (headerAttr st.1.headers response_header) default, st)
  | .ResponseStatus response_status =>
      (match response_status with
       | .Code => some (AttributeValue.I64 (Int.ofNat st.1.status))
       | .Reason => (canonicalReason st.1.status).map AttributeValue.String, st)
  | .ResponseContext response_context _ default =>
      (orDefault (ctxGetAttr st.1.context response_context) default, st)
  | .Baggage baggage_name _ default =>
      (match lookupFst st.2.baggage baggage_name with
       | some baggage => some baggage
       | none => default, st)
  | _ => (none, st)

/-- `SupergraphSelector::on_request`, state-passing form. -/
def SupergraphSelector.on_request_st (s : SupergraphSelector)
    (st : SupergraphRequest × Ambient) :
    Option AttributeValue × (SupergraphRequest × Ambient) :=
  match s with
  | .OperationName operation_name _ default =>
      let op_name := ctxGetString st.1.context OPERATION_NAME
      ((match operation_name with
        | .String => orDefault op_name default
        | .Hash => (orDefault op_name default).map sha256Hex).map
         AttributeValue.String, st)
  | .OperationKind _ => (ctxGetAttr st.1.context OPERATION_KIND, st)
  | .Query _ _ default =>
      ((orDefault st.1.body.query default).map AttributeValue.String, st)
  | .QueryVariable query_variable _ default =>
      (orDefault ((lookupFst st.1.body.vars query_variable).map
        (fun v => AttributeValue.String (jsonToString v))) default, st)
  | .RequestHeader request_header _ default =>
      (orDefault (headerAttr st.1.headers request_header) default, st)
  | .RequestContext request_context _ default =>
      (orDefault (ctxGetAttr st.1.context request_context) default, st)
  | .Baggage baggage_name _ default =>
      (match lookupFst st.2.baggage baggage_name with
       | some baggage => some baggage
       | none => default, st)
  | .Env env _ default =>
      (orDefault ((lookupFst st.2.env env).map AttributeValue.String)
        (default.map AttributeValue.String), st)
  | _ => (none, st)

/-- `SupergraphSelector::on_response`, state-passing form. -/
def SupergraphSelector.on_response_st (s : SupergraphSelector)
    (st : SupergraphResponse × Ambient) :
    Option AttributeValue × (SupergraphResponse × Ambient) :=
  match s with
  | .ResponseHeader response_header _ default =>
      (orDefault (headerAttr st.1.headers response_header) default, st)
  | .ResponseContext response_context _ default =>
      (orDefault (ctxGetAttr st.1.context response_context) default, st)
  | _ => (none, st)

/-- `SubgraphSelector::on_request`, state-passing form. -/
def SubgraphSelector.on_request_st (s : SubgraphSelector)
    (st : SubgraphRequest × Ambient) :
    Option AttributeValue × (SubgraphRequest × Ambient) :=
  match s with
  | .SubgraphOperationName subgraph_operation_name _ default =>
      let op_name := st.1.subgraph_body.operation_name
      ((match subgraph_operation_name with
        | .String => orDefault op_name default
        | .Hash => (orDefault op_name default).map sha256Hex).map
         AttributeValue.String, st)
  | .SupergraphOperationName supergraph_operation_name _ default =>
      let op_name := ctxGetString st.1.context OPERATION_NAME
      ((match supergraph_operation_name with
        | .String => orDefault op_name default
        | .Hash => (orDefault op_name default).map sha256Hex).map
         AttributeValue.String, st)
  | .SubgraphOperationKind _ =>
      (some (AttributeValue.String
        st.1.operation_kind.asApolloOperationTypeString), st)
  | .SupergraphOperationKind _ => (ctxGetAttr st.1.context OPERATION_KIND, st)
  | .SupergraphQuery _ _ default =>
      ((orDefault st.1.supergraph_body.query default).map
        AttributeValue.String, st)
  | .SubgraphQuery _ _ default =>
      ((orDefault st.1.subgraph_body.query default).map
        AttributeValue.String, st)
  | .SubgraphQueryVariable subgraph_query_variable _ default =>
      (orDefault ((lookupFst st.1.subgraph_body.vars
        subgraph_query_variable).map
          (fun v => AttributeValue.String (jsonToString v))) default, st)
  | .SupergraphQueryVariable supergraph_query_variable _ default =>
      (orDefault ((lookupFst st.1.supergraph_body.vars
        supergraph_query_variable).map
          (fun v => AttributeValue.String (jsonToString v))) default, st)
  | .SubgraphRequestHeader subgraph_request_header _ default =>
      (orDefault (headerAttr st.1.subgraph_headers subgraph_request_header)
        default, st)
  | .SupergraphRequestHeader supergraph_request_header _ default =>
      (orDefault (headerAttr st.1.supergraph_headers
        supergraph_request_header) default, st)
  | .RequestContext request_context _ default =>
      (orDefault (ctxGetAttr st.1.context request_context) default, st)
  | .Baggage baggage_name _ default =>
      (match lookupFst st.2.baggage baggage_name with
       | some baggage => some baggage
       | none => default, st)
  | .Env env _ default =>
      (orDefault ((lookupFst st.2.env env).map AttributeValue.String)
        (default.map AttributeValue.String), st)
  | _ => (none, st)

/-- `SubgraphSelector::on_response`, state-passing form. -/
def SubgraphSelector.on_response_st (s : SubgraphSelector)
    (st : SubgraphResponse × Ambient) :
    Option AttributeValue × (SubgraphResponse × Ambient) :=
  match s with
  | .SubgraphResponseHeader subgraph_response_header _ default =>
      (orDefault (headerAttr st.1.headers subgraph_response_header) default, st)
  | .SubgraphResponseStatus response_status =>
      (match response_status with
       | .Code => some (AttributeValue.I64 (Int.ofNat st.1.status))
       | .Reason => (canonicalReason st.1.status).map AttributeValue.String, st)
  | .SubgraphResponseBody subgraph_response_body _ default =>
      (match (subgraph_response_body st.1.body).toOption.join with
       | none => none
       | some output => orDefault (attrOfJsonScalar output) default, st)
  | .ResponseContext response_context _ default =>
      (orDefault (ctxGetAttr st.1.context response_context) default, st)
  | _ => (none, st)

/-! ## Concrete fixtures used by closed statements -/

/-- Ambient state with nothing set: empty environment, no valid span,
empty baggage. -/
def amb0 : Ambient := ⟨[], false, 0, []⟩

/-- An empty GraphQL body. -/
def body0 : GraphqlRequest := ⟨none, none, []⟩

/-- An empty router request. -/
def routerReq0 : RouterRequest := ⟨[], []⟩

/-- An empty supergraph request. -/
def superReq0 : SupergraphRequest := ⟨[], body0, []⟩

/-- An empty subgraph request. -/
def subReq0 : SubgraphRequest := ⟨[], body0, [], body0, .query, []⟩

/-- A bare subgraph response with an unregistered status code. -/
def subResp0 : SubgraphResponse := ⟨[], 999, Json.null, []⟩

/-! ## Helper lemmas -/

@[simp] theorem lookupFst_nil {α : Type} (k : String) :
    lookupFst ([] : List (String × α)) k = none := rfl

@[simp] theorem lookupFst_cons_self {α : Type} (k : String) (v : α)
    (t : List (String × α)) : lookupFst ((k, v) :: t) k = some v := by
  simp [lookupFst]

@[simp] theorem orDefault_some {α : Type} (v : α) (d : Option α) :
    orDefault (some v) d = some v := rfl

@[simp] theorem orDefault_none {α : Type} (d : Option α) :
    orDefault none d = d := rfl

theorem toHexCore_length (w : Nat) : ∀ n : Nat, (toHexCore n w).length = w := by
  induction w with
  | zero => intro n; rfl
  | succ w ih =>
      intro n
      simp [toHexCore, ih (n / 16)]

theorem toHexPad_length (n w : Nat) : (toHexPad n w).length = w := by
  simp [toHexPad, String.length, toHexCore_length]

theorem hexDigit_mem (k : Nat) (hk : k < 16) : hexDigit k ∈ hexChars := by
  interval_cases k <;> decide

theorem toHexCore_subset (w : Nat) :
    ∀ n c, c ∈ toHexCore n w → c ∈ hexChars := by
  induction w with
  | zero => intro n c hc; simp [toHexCore] at hc
  | succ w ih =>
      intro n c hc
      simp only [toHexCore, List.mem_append, List.mem_singleton] at hc
      rcases hc with hc | hc
      · exact ih (n / 16) c hc
      · subst hc
        exact hexDigit_mem (n % 16) (Nat.mod_lt n (by norm_num))

theorem toHexPad_subset (n w : Nat) :
    ∀ c ∈ (toHexPad n w).data, c ∈ hexChars := by
  intro c hc
  exact toHexCore_subset w n c hc

theorem digestHex_length (st : Sha256State) : (digestHex st).length = 64 := by
  simp [digestHex, String.length, toHexCore_length]

theorem digestHex_subset (st : Sha256State) :
    ∀ c ∈ (digestHex st).data, c ∈ hexChars := by
  intro c hc
  simp only [digestHex, List.mem_append] at hc
  rcases hc with ((((((hc | hc) | hc) | hc) | hc) | hc) | hc) | hc <;>
    exact toHexCore_subset 8 _ c hc

example : sha256Hex "topProducts" =
    "bd141fca26094be97c30afd42e9fc84755b252e7052d8c992358319246bd555a" := by
  decide

example : sha256Hex "defaulted" =
    "96294f50edb8f006f6b0a2dadae50d3c521e9841d07d6395d91060c8ccfed7f0" := by
  decide

/-! ## The claims -/

/-- C3: a trace-id selector yields absent whenever the active span context
is invalid, regardless of format; with a valid context, the OpenTelemetry
format renders the 128-bit identifier as the fixed-width 32-character
lowercase zero-padded hexadecimal string (trace id 42 gives
`"0000000000000000000000000000002a"`), and the Datadog format yields the
same 128 bits as a big-endian unsigned 128-bit integer (trace id 42 gives
the unsigned value 42). -/
theorem C3_trace_id_formatting :
    (∀ (fmt : TraceIdFormat) (env : List (String × String)) (tid : Nat)
        (bag : List (String × AttributeValue)) (req : RouterRequest),
      RouterSelector.on_request (.TraceId fmt) ⟨env, false, tid, bag⟩ req
        = none) ∧
    (∀ (env : List (String × String)) (tid : Nat)
        (bag : List (String × AttributeValue)) (req : RouterRequest),
      RouterSelector.on_request (.TraceId .OpenTelemetry)
          ⟨env, true, tid, bag⟩ req
        = some (AttributeValue.String (toHexPad (tid % 2 ^ 128) 32))) ∧
    (∀ (env : List (String × String)) (tid : Nat)
        (bag : List (String × AttributeValue)) (req : RouterRequest),
      RouterSelector.on_request (.TraceId .Datadog) ⟨env, true, tid, bag⟩ req
        = some (AttributeValue.U128 (tid % 2 ^ 128))) ∧
    (RouterSelector.on_request (.TraceId .OpenTelemetry) ⟨[], true, 42, []⟩
        routerReq0
      = some (AttributeValue.String "0000000000000000000000000000002a")) ∧
    (RouterSelector.on_request (.TraceId .Datadog) ⟨[], true, 42, []⟩
        routerReq0
      = some (AttributeValue.U128 42)) ∧
    (∀ tid : Nat, (toHexPad (tid % 2 ^ 128) 32).length = 32) ∧
    (∀ (tid : Nat) (c : Char), c ∈ (toHexPad (tid % 2 ^ 128) 32).data →
      c ∈ hexChars) :=
  ⟨fun _ _ _ _ _ => rfl, fun _ _ _ _ => rfl, fun _ _ _ _ => rfl,
   by decide, by decide, fun tid => toHexPad_length _ _,
   fun tid c hc => toHexPad_subset _ _ c hc⟩

/-- C6: a response-status selector in `Code` mode yields the numeric
status as a signed integer, and in `Reason` mode the canonical reason
phrase when the implementation registers one for that code and absent
otherwise; status 204 gives the integer 204 and the string
`"No Content"`.  Holds at both the router and the subgraph tier. -/
theorem C6_response_status_selectors :
    (∀ (hs : Headers) (st : Nat) (ctx : Ctx) (amb : Ambient),
      RouterSelector.on_response (.ResponseStatus .Code) amb ⟨hs, st, ctx⟩
        = some (AttributeValue.I64 (Int.ofNat st))) ∧
    (∀ (hs : Headers) (st : Nat) (ctx : Ctx) (amb : Ambient),
      RouterSelector.on_response (.ResponseStatus .Reason) amb ⟨hs, st, ctx⟩
        = (canonicalReason st).map AttributeValue.String) ∧
    (∀ (hs : Headers) (st : Nat) (b : Json) (ctx : Ctx) (amb : Ambient),
      SubgraphSelector.on_response (.SubgraphResponseStatus .Code) amb
          ⟨hs, st, b, ctx⟩
        = some (AttributeValue.I64 (Int.ofNat st))) ∧
    (∀ (hs : Headers) (st : Nat) (b : Json) (ctx : Ctx) (amb : Ambient),
      SubgraphSelector.on_response (.SubgraphResponseStatus .Reason) amb
          ⟨hs, st, b, ctx⟩
        = (canonicalReason st).map AttributeValue.String) ∧
    (RouterSelector.on_response (.ResponseStatus .Code) amb0 ⟨[], 204, []⟩
      = some (AttributeValue.I64 204)) ∧
    (RouterSelector.on_response (.ResponseStatus .Reason) amb0 ⟨[], 204, []⟩
      = some (AttributeValue.String "No Content")) ∧
    (RouterSelector.on_response (.ResponseStatus .Reason) amb0 ⟨[], 999, []⟩
      = none) :=
  ⟨fun _ _ _ _ => rfl, fun _ _ _ _ => rfl, fun _ _ _ _ _ => rfl,
   fun _ _ _ _ _ => rfl, by decide, by decide, by decide⟩

/-- C7: a query-variable selector returns the canonical JSON serialization
of the bound value as a string attribute when the variable is present (a
variable bound to the JSON scalar `"value"` yields the literal string
`"\"value\""` with the quote characters), and the configured default when
the variable is absent. -/
theorem C7_query_variable_serialization :
    (∀ (n : String) (j : Json) (rest : List (String × Json)) (hs : Headers)
        (q opn : Option String) (ctx : Ctx) (amb : Ambient)
        (red : Option String) (d : Option AttributeValue),
      SupergraphSelector.on_request (.QueryVariable n red d) amb
          ⟨hs, ⟨q, opn, (n, j) :: rest⟩, ctx⟩
        = some (AttributeValue.String (jsonToString j))) ∧
    (∀ (n : String) (hs : Headers) (q opn : Option String) (ctx : Ctx)
        (amb : Ambient) (red : Option String) (d : Option AttributeValue),
      SupergraphSelector.on_request (.QueryVariable n red d) amb
          ⟨hs, ⟨q, opn, []⟩, ctx⟩ = d) ∧
    (jsonToString (Json.str "value") = "\"value\"") ∧
    (SupergraphSelector.on_request
        (.QueryVariable "key" none (some (AttributeValue.String "default")))
        amb0 ⟨[], ⟨none, none, [("key", Json.str "value")]⟩, []⟩
      = some (AttributeValue.String "\"value\"")) ∧
    (SupergraphSelector.on_request
        (.QueryVariable "key" none (some (AttributeValue.String "default")))
        amb0 superReq0
      = some (AttributeValue.String "default")) :=
  ⟨fun n j rest hs q opn ctx amb red d => by
      simp [SupergraphSelector.on_request],
   fun _ _ _ _ _ _ _ _ => rfl, by decide, by decide, by decide⟩

/-- C10: at the supergraph tier the ambient-source selectors (environment
variable and baggage) are request-time only: `on_response` yields absent
for them even when the environment variable or baggage entry is set and a
default is configured, while `on_request` reads them. -/
theorem C10_supergraph_ambient_selectors_request_only :
    (∀ (n : String) (red : Option String) (d : Option String)
        (amb : Ambient) (resp : SupergraphResponse),
      SupergraphSelector.on_response (.Env n red d) amb resp = none) ∧
    (∀ (n : String) (red : Option String) (d : Option AttributeValue)
        (amb : Ambient) (resp : SupergraphResponse),
      SupergraphSelector.on_response (.Baggage n red d) amb resp = none) ∧
    (SupergraphSelector.on_response (.Env "X" none (some "defaulted"))
        ⟨[("X", "env_value")], false, 0, []⟩ ⟨[], []⟩ = none) ∧
    (SupergraphSelector.on_response
        (.Baggage "bk" none (some (AttributeValue.String "defaulted")))
        ⟨[], false, 0, [("bk", AttributeValue.String "baggage_value")]⟩
        ⟨[], []⟩ = none) ∧
    (∀ (n v : String) (env : List (String × String)) (sv : Bool) (tid : Nat)
        (bag : List (String × AttributeValue)) (red : Option String)
        (d : Option String) (req : SupergraphRequest),
      SupergraphSelector.on_request (.Env n red d)
          ⟨(n, v) :: env, sv, tid, bag⟩ req
        = some (AttributeValue.String v)) :=
  ⟨fun _ _ _ _ _ => rfl, fun _ _ _ _ _ => rfl, by decide, by decide,
   fun n v env sv tid bag red d req => by
     simp [SupergraphSelector.on_request]⟩

/-- C4: phase exclusivity — every selector meaningful only at response
time yields absent from `on_request`, and every selector meaningful only
at request time yields absent from `on_response`, for every pipeline
object and ambient state; absence, never an error (the result type has no
error case).  Covers all phase-one-sided variants of the three families
(baggage at the router and subgraph tiers is meaningful at both phases at
the router tier and request-only at the subgraph tier, and is included
where one-sided). -/
theorem C4_phase_exclusivity :
    (∀ (k : String) (red : Option String) (d : Option AttributeValue)
        (amb : Ambient) (req : RouterRequest),
      RouterSelector.on_request (.ResponseHeader k red d) amb req = none) ∧
    (∀ (m : ResponseStatusMode) (amb : Ambient) (req : RouterRequest),
      RouterSelector.on_request (.ResponseStatus m) amb req = none) ∧
    (∀ (k : String) (red : Option String) (d : Option AttributeValue)
        (amb : Ambient) (req : RouterRequest),
      RouterSelector.on_request (.ResponseContext k red d) amb req = none) ∧
    (∀ (k : String) (red : Option String) (d : Option AttributeValue)
        (amb : Ambient) (resp : RouterResponse),
      RouterSelector.on_response (.RequestHeader k red d) amb resp = none) ∧
    (∀ (f : TraceIdFormat) (amb : Ambient) (resp : RouterResponse),
      RouterSelector.on_response (.TraceId f) amb resp = none) ∧
    (∀ (k : String) (red : Option String) (d : Option String)
        (amb : Ambient) (resp : RouterResponse),
      RouterSelector.on_response (.Env k red d) amb resp = none) ∧
    (∀ (k : String) (red : Option String) (d : Option AttributeValue)
        (amb : Ambient) (req : SupergraphRequest),
      SupergraphSelector.on_request (.ResponseHeader k red d) amb req
        = none) ∧
    (∀ (k : String) (red : Option String) (d : Option AttributeValue)
        (amb : Ambient) (req : SupergraphRequest),
      SupergraphSelector.on_request (.ResponseContext k red d) amb req
        = none) ∧
    (∀ (m : OperationName) (red : Option String) (d : Option String)
        (amb : Ambient) (resp : SupergraphResponse),
      SupergraphSelector.on_response (.OperationName m red d) amb resp
        = none) ∧
    (∀ (m : OperationKindMode) (amb : Ambient) (resp : SupergraphResponse),
      SupergraphSelector.on_response (.OperationKind m) amb resp = none) ∧
    (∀ (m : QueryMode) (red : Option String) (d : Option String)
        (amb : Ambient) (resp : SupergraphResponse),
      SupergraphSelector.on_response (.Query m red d) amb resp = none) ∧
    (∀ (k : String) (red : Option String) (d : Option AttributeValue)
        (amb : Ambient) (resp : SupergraphResponse),
      SupergraphSelector.on_response (.QueryVariable k red d) amb resp
        = none) ∧
    (∀ (k : String) (red : Option String) (d : Option AttributeValue)
        (amb : Ambient) (resp : SupergraphResponse),
      SupergraphSelector.on_response (.RequestHeader k red d) amb resp
        = none) ∧
    (∀ (k : String) (red : Option String) (d : Option AttributeValue)
        (amb : Ambient) (resp : SupergraphResponse),
      SupergraphSelector.on_response (.RequestContext k red d) amb resp
        = none) ∧
    (∀ (k : String) (red : Option String) (d : Option String)
        (amb : Ambient) (resp : SupergraphResponse),
      SupergraphSelector.on_response (.Env k red d) amb resp = none) ∧
    (∀ (k : String) (red : Option String) (d : Option AttributeValue)
        (amb : Ambient) (req : SubgraphRequest),
      SubgraphSelector.on_request (.SubgraphResponseHeader k red d) amb req
        = none) ∧
    (∀ (m : ResponseStatusMode) (amb : Ambient) (req : SubgraphRequest),
      SubgraphSelector.on_request (.SubgraphResponseStatus m) amb req
        = none) ∧
    (∀ (q : Json → Except Unit (Option Json)) (red : Option String)
        (d : Option AttributeValue) (amb : Ambient) (req : SubgraphRequest),
      SubgraphSelector.on_request (.SubgraphResponseBody q red d) amb req
        = none) ∧
    (∀ (k : String) (red : Option String) (d : Option AttributeValue)
        (amb : Ambient) (req : SubgraphRequest),
      SubgraphSelector.on_request (.ResponseContext k red d) amb req
        = none) ∧
    (∀ (m : OperationName) (red : Option String) (d : Option String)
        (amb : Ambient) (resp : SubgraphResponse),
      SubgraphSelector.on_response (.SubgraphOperationName m red d) amb resp
        = none) ∧
    (∀ (m : OperationKindMode) (amb : Ambient) (resp : SubgraphResponse),
      SubgraphSelector.on_response (.SubgraphOperationKind m) amb resp
        = none) ∧
    (∀ (m : QueryMode) (red : Option String) (d : Option String)
        (amb : Ambient) (resp : SubgraphResponse),
      SubgraphSelector.on_response (.SubgraphQuery m red d) amb resp
        = none) ∧
    (∀ (k : String) (red : Option String) (d : Option AttributeValue)
        (amb : Ambient) (resp : SubgraphResponse),
      SubgraphSelector.on_response (.SubgraphQueryVariable k red d) amb resp
        = none) ∧
    (∀ (k : String) (red : Option String) (d : Option AttributeValue)
        (amb : Ambient) (resp : SubgraphResponse),
      SubgraphSelector.on_response (.SubgraphRequestHeader k red d) amb resp
        = none) ∧
    (∀ (m : OperationName) (red : Option String) (d : Option String)
        (amb : Ambient) (resp : SubgraphResponse),
      SubgraphSelector.on_response (.SupergraphOperationName m red d) amb
        resp = none) ∧
    (∀ (m : OperationKindMode) (amb : Ambient) (resp : SubgraphResponse),
      SubgraphSelector.on_response (.SupergraphOperationKind m) amb resp
        = none) ∧
    (∀ (m : QueryMode) (red : Option String) (d : Option String)
        (amb : Ambient) (resp : SubgraphResponse),
      SubgraphSelector.on_response (.SupergraphQuery m red d) amb resp
        = none) ∧
    (∀ (k : String) (red : Option String) (d : Option AttributeValue)
        (amb : Ambient) (resp : SubgraphResponse),
      SubgraphSelector.on_response (.SupergraphQueryVariable k red d) amb
        resp = none) ∧
    (∀ (k : String) (red : Option String) (d : Option AttributeValue)
        (amb : Ambient) (resp : SubgraphResponse),
      SubgraphSelector.on_response (.SupergraphRequestHeader k red d) amb
        resp = none) ∧
    (∀ (k : String) (red : Option String) (d : Option AttributeValue)
        (amb : Ambient) (resp : SubgraphResponse),
      SubgraphSelector.on_response (.RequestContext k red d) amb resp
        = none) ∧
    (∀ (k : String) (red : Option String) (d : Option AttributeValue)
        (amb : Ambient) (resp : SubgraphResponse),
      SubgraphSelector.on_response (.Baggage k red d) amb resp = none) ∧
    (∀ (k : String) (red : Option String) (d : Option String)
        (amb : Ambient) (resp : SubgraphResponse),
      SubgraphSelector.on_response (.Env k red d) amb resp = none) :=
  ⟨fun _ _ _ _ _ => rfl, fun _ _ _ => rfl, fun _ _ _ _ _ => rfl,
   fun _ _ _ _ _ => rfl, fun _ _ _ => rfl, fun _ _ _ _ _ => rfl,
   fun _ _ _ _ _ => rfl, fun _ _ _ _ _ => rfl, fun _ _ _ _ _ => rfl,
   fun _ _ _ => rfl, fun _ _ _ _ _ => rfl, fun _ _ _ _ _ => rfl,
   fun _ _ _ _ _ => rfl, fun _ _ _ _ _ => rfl, fun _ _ _ _ _ => rfl,
   fun _ _ _ _ _ => rfl, fun _ _ _ => rfl, fun _ _ _ _ _ => rfl,
   fun _ _ _ _ _ => rfl, fun _ _ _ _ _ => rfl, fun _ _ _ => rfl,
   fun _ _ _ _ _ => rfl, fun _ _ _ _ _ => rfl, fun _ _ _ _ _ => rfl,
   fun _ _ _ _ _ => rfl, fun _ _ _ => rfl, fun _ _ _ _ _ => rfl,
   fun _ _ _ _ _ => rfl, fun _ _ _ _ _ => rfl, fun _ _ _ _ _ => rfl,
   fun _ _ _ _ _ => rfl, fun _ _ _ _ _ => rfl⟩

/-- C9: the `SubgraphOperationKind` selector always yields a value on a
subgraph request — the operation kind rendered as text — never absent;
every other subgraph selector variant has an evaluation that yields
absent. -/
theorem C9_subgraph_operation_kind_never_absent :
    (∀ (m : OperationKindMode) (amb : Ambient) (req : SubgraphRequest),
      SubgraphSelector.on_request (.SubgraphOperationKind m) amb req
        = some (AttributeValue.String
            req.operation_kind.asApolloOperationTypeString)) ∧
    (∀ (m : OperationKindMode) (amb : Ambient) (req : SubgraphRequest),
      (SubgraphSelector.on_request (.SubgraphOperationKind m) amb req).isSome
        = true) ∧
    (SubgraphSelector.on_request (.SubgraphOperationName .String none none)
      amb0 subReq0 = none) ∧
    (SubgraphSelector.on_request (.SubgraphQuery .String none none) amb0
      subReq0 = none) ∧
    (SubgraphSelector.on_request (.SubgraphQueryVariable "k" none none) amb0
      subReq0 = none) ∧
    (SubgraphSelector.on_request (.SubgraphRequestHeader "k" none none) amb0
      subReq0 = none) ∧
    (SubgraphSelector.on_response (.SubgraphResponseHeader "k" none none)
      amb0 subResp0 = none) ∧
    (SubgraphSelector.on_response (.SubgraphResponseStatus .Reason) amb0
      subResp0 = none) ∧
    (SubgraphSelector.on_response
      (.SubgraphResponseBody (fun _ => Except.ok none) none none) amb0
      subResp0 = none) ∧
    (SubgraphSelector.on_request
      (.SupergraphOperationName .String none none) amb0 subReq0 = none) ∧
    (SubgraphSelector.on_request (.SupergraphOperationKind .String) amb0
      subReq0 = none) ∧
    (SubgraphSelector.on_request (.SupergraphQuery .String none none) amb0
      subReq0 = none) ∧
    (SubgraphSelector.on_request (.SupergraphQueryVariable "k" none none)
      amb0 subReq0 = none) ∧
    (SubgraphSelector.on_request (.SupergraphRequestHeader "k" none none)
      amb0 subReq0 = none) ∧
    (SubgraphSelector.on_request (.RequestContext "k" none none) amb0 subReq0
      = none) ∧
    (SubgraphSelector.on_response (.ResponseContext "k" none none) amb0
      subResp0 = none) ∧
    (SubgraphSelector.on_request (.Baggage "k" none none) amb0 subReq0
      = none) ∧
    (SubgraphSelector.on_request (.Env "k" none none) amb0 subReq0
      = none) :=
  ⟨fun _ _ _ => rfl, fun _ _ _ => rfl, by decide, by decide, by decide,
   by decide, by decide, by decide, by rfl, by decide, by decide, by decide,
   by decide, by decide, by decide, by decide, by decide, by decide⟩

/-- C1 counterexample: a response-body selector whose JSON-path evaluator
errors, with default `"d"` configured, yields absent instead of the
default — `execute(..).ok().flatten()?` short-circuits before the default
is consulted, so the claim as stated is false for the evaluator-error and
no-match cases. -/
theorem C1_counterexample_error_bypasses_default :
    SubgraphSelector.on_response
        (.SubgraphResponseBody (fun _ => Except.error ()) none
          (some (AttributeValue.String "d"))) amb0 subResp0 = none ∧
    SubgraphSelector.on_response
        (.SubgraphResponseBody (fun _ => Except.error ()) none
          (some (AttributeValue.String "d"))) amb0 subResp0
      ≠ some (AttributeValue.String "d") ∧
    SubgraphSelector.on_response
        (.SubgraphResponseBody (fun _ => Except.ok none) none
          (some (AttributeValue.String "d"))) amb0 subResp0 = none :=
  ⟨rfl, by decide, rfl⟩

/-- C1 amended: the response-body selector falls back to its configured
default only when the JSON path matched a value that is not a convertible
scalar; an evaluator error or a no-match yields absent even when a
default is configured, and a convertible scalar match yields the
converted value. -/
theorem C1_body_query_default_only_on_unconvertible_match :
    (∀ (q : Json → Except Unit (Option Json)) (red : Option String)
        (d : Option AttributeValue) (amb : Ambient)
        (resp : SubgraphResponse),
      q resp.body = Except.error () →
      SubgraphSelector.on_response (.SubgraphResponseBody q red d) amb resp
        = none) ∧
    (∀ (q : Json → Except Unit (Option Json)) (red : Option String)
        (d : Option AttributeValue) (amb : Ambient)
        (resp : SubgraphResponse),
      q resp.body = Except.ok none →
      SubgraphSelector.on_response (.SubgraphResponseBody q red d) amb resp
        = none) ∧
    (∀ (q : Json → Except Unit (Option Json)) (red : Option String)
        (d : Option AttributeValue) (amb : Ambient)
        (resp : SubgraphResponse) (j : Json),
      q resp.body = Except.ok (some j) → attrOfJsonScalar j = none →
      SubgraphSelector.on_response (.SubgraphResponseBody q red d) amb resp
        = d) ∧
    (∀ (q : Json → Except Unit (Option Json)) (red : Option String)
        (d : Option AttributeValue) (amb : Ambient)
        (resp : SubgraphResponse) (j : Json) (v : AttributeValue),
      q resp.body = Except.ok (some j) → attrOfJsonScalar j = some v →
      SubgraphSelector.on_response (.SubgraphResponseBody q red d) amb resp
        = some v) :=
  ⟨fun q red d amb resp hq => by
      simp [SubgraphSelector.on_response, hq, Except.toOption, Option.join],
   fun q red d amb resp hq => by
      simp [SubgraphSelector.on_response, hq, Except.toOption, Option.join],
   fun q red d amb resp j hq hj => by
      simp [SubgraphSelector.on_response, hq, Except.toOption, Option.join,
        hj],
   fun q red d amb resp j v hq hj => by
      simp [SubgraphSelector.on_response, hq, Except.toOption, Option.join,
        hj]⟩

/-- C1 witness: at a concrete unconvertible match (an empty JSON array)
the configured default is produced, by the amended theorem. -/
theorem C1_amended_witness :
    SubgraphSelector.on_response
        (.SubgraphResponseBody (fun _ => Except.ok (some (Json.arr [])))
          none (some (AttributeValue.String "dv"))) amb0 subResp0
      = some (AttributeValue.String "dv") :=
  C1_body_query_default_only_on_unconvertible_match.2.2.1
    (fun _ => Except.ok (some (Json.arr []))) none
    (some (AttributeValue.String "dv")) amb0 subResp0 (Json.arr []) rfl rfl

/-- C2: the hash-mode operation-name selector hashes the operation name
when present, else the configured default string; the output is the
lowercase hexadecimal encoding of the 256-bit SHA-256 digest — a
64-character lowercase hex string — deterministic in the input bytes; and
with the name absent and no default configured the result is absent. -/
theorem C2_operation_name_hash :
    (∀ (red : Option String) (d : Option String) (hs : Headers)
        (body : GraphqlRequest) (rest : Ctx) (amb : Ambient) (nm : String),
      SupergraphSelector.on_request (.OperationName .Hash red d) amb
          ⟨hs, body, (OPERATION_NAME, Json.str nm) :: rest⟩
        = some (AttributeValue.String (sha256Hex nm))) ∧
    (∀ (red : Option String) (ds : String) (hs : Headers)
        (body : GraphqlRequest) (amb : Ambient),
      SupergraphSelector.on_request (.OperationName .Hash red (some ds)) amb
          ⟨hs, body, []⟩ = some (AttributeValue.String (sha256Hex ds))) ∧
    (∀ (red : Option String) (hs : Headers) (body : GraphqlRequest)
        (amb : Ambient),
      SupergraphSelector.on_request (.OperationName .Hash red none) amb
          ⟨hs, body, []⟩ = none) ∧
    (∀ s : String, (sha256Hex s).length = 64) ∧
    (∀ (s : String) (c : Char), c ∈ (sha256Hex s).data → c ∈ hexChars) ∧
    (∀ s1 s2 : String, utf8Encode s1 = utf8Encode s2 →
      sha256Hex s1 = sha256Hex s2) :=
  ⟨fun red d hs body rest amb nm => by
      simp [SupergraphSelector.on_request, ctxGetString],
   fun _ _ _ _ _ => rfl, fun _ _ _ _ => rfl,
   fun s => digestHex_length _,
   fun s c hc => digestHex_subset _ c hc,
   fun s1 s2 hb => by simp [sha256Hex, hb]⟩

/-- C2 witness: the hash-mode selector at concrete inputs — hashing the
configured default `"defaulted"` when the name is absent, and the fixed
digest of `"topProducts"`, matching the repository's recorded vectors. -/
theorem C2_operation_name_hash_witness :
    SupergraphSelector.on_request
        (.OperationName .Hash none (some "defaulted")) amb0 ⟨[], body0, []⟩
      = some (AttributeValue.String (sha256Hex "defaulted")) ∧
    sha256Hex "defaulted"
      = "96294f50edb8f006f6b0a2dadae50d3c521e9841d07d6395d91060c8ccfed7f0" ∧
    SupergraphSelector.on_request (.OperationName .Hash none none) amb0
        ⟨[], body0, (OPERATION_NAME, Json.str "topProducts") :: []⟩
      = some (AttributeValue.String (sha256Hex "topProducts")) ∧
    sha256Hex "topProducts"
      = "bd141fca26094be97c30afd42e9fc84755b252e7052d8c992358319246bd555a" ∧
    sha256Hex "topProducts" = sha256Hex "topProducts" :=
  ⟨C2_operation_name_hash.2.1 none "defaulted" [] body0 amb0, by decide,
   C2_operation_name_hash.1 none none [] body0 [] amb0 "topProducts",
   by decide,
   C2_operation_name_hash.2.2.2.2.2 "topProducts" "topProducts" rfl⟩

set_option maxRecDepth 8192 in
/-- C5 counterexample: two default-carrying selectors violate the uniform
defaulting claim.  A hash-mode operation-name selector with default
`"defaulted"` and an absent source returns the digest of the default, not
the default itself; and a response-body selector whose path matches
nothing returns absent even though a default is configured. -/
theorem C5_counterexample_default_not_uniform :
    SupergraphSelector.on_request
        (.OperationName .Hash none (some "defaulted")) amb0 superReq0
      ≠ some (AttributeValue.String "defaulted") ∧
    SupergraphSelector.on_request
        (.OperationName .Hash none (some "defaulted")) amb0 superReq0
      = some (AttributeValue.String
          "96294f50edb8f006f6b0a2dadae50d3c521e9841d07d6395d91060c8ccfed7f0") ∧
    SubgraphSelector.on_response
        (.SubgraphResponseBody (fun _ => Except.ok none) none
          (some (AttributeValue.I64 7))) amb0 ⟨[], 200, Json.null, []⟩
      ≠ some (AttributeValue.I64 7) :=
  ⟨by decide, by decide, by decide⟩

/-- C5 amended: every selector carrying an optional default is, at its
meaningful phase, exactly a source lookup resolved through the default —
present source gives the (converted) source value, absent source gives
the default if configured and absent otherwise — except that hash-mode
operation-name selectors hash the winning string (so an absent source
with a default yields the digest of the default, not the default), and
the subgraph response-body selector consults its default only for a
matched-but-unconvertible value (evaluator error or no-match gives
absent even with a default).  Stated as: each arm equals its lookup
composed with `orDefault`, together with the resolution behaviour of
`orDefault` and of each lookup primitive, and shaped end-to-end
instances. -/
theorem C5_default_resolution :
    (∀ (k : String) (red : Option String) (d : Option AttributeValue)
        (amb : Ambient) (req : RouterRequest),
      RouterSelector.on_request (.RequestHeader k red d) amb req
        = orDefault (headerAttr req.headers k) d) ∧
    (∀ (k : String) (red : Option String) (d : Option String)
        (amb : Ambient) (req : RouterRequest),
      RouterSelector.on_request (.Env k red d) amb req
        = orDefault ((lookupFst amb.env k).map AttributeValue.String)
            (d.map AttributeValue.String)) ∧
    (∀ (k : String) (red : Option String) (d : Option AttributeValue)
        (amb : Ambient) (req : RouterRequest),
      RouterSelector.on_request (.Baggage k red d) amb req
        = orDefault (lookupFst amb.baggage k) d) ∧
    (∀ (k : String) (red : Option String) (d : Option AttributeValue)
        (amb : Ambient) (resp : RouterResponse),
      RouterSelector.on_response (.ResponseHeader k red d) amb resp
        = orDefault (headerAttr resp.headers k) d) ∧
    (∀ (k : String) (red : Option String) (d : Option AttributeValue)
        (amb : Ambient) (resp : RouterResponse),
      RouterSelector.on_response (.ResponseContext k red d) amb resp
        = orDefault (ctxGetAttr resp.context k) d) ∧
    (∀ (k : String) (red : Option String) (d : Option AttributeValue)
        (amb : Ambient) (resp : RouterResponse),
      RouterSelector.on_response (.Baggage k red d) amb resp
        = orDefault (lookupFst amb.baggage k) d) ∧
    (∀ (red : Option String) (d : Option String) (amb : Ambient)
        (req : SupergraphRequest),
      SupergraphSelector.on_request (.OperationName .String red d) amb req
        = (orDefault (ctxGetString req.context OPERATION_NAME) d).map
            AttributeValue.String) ∧
    (∀ (red : Option String) (d : Option String) (amb : Ambient)
        (req : SupergraphRequest),
      SupergraphSelector.on_request (.OperationName .Hash red d) amb req
        = ((orDefault (ctxGetString req.context OPERATION_NAME) d).map
            sha256Hex).map AttributeValue.String) ∧
    (∀ (m : QueryMode) (red : Option String) (d : Option String)
        (amb : Ambient) (req : SupergraphRequest),
      SupergraphSelector.on_request (.Query m red d) amb req
        = (orDefault req.body.query d).map AttributeValue.String) ∧
    (∀ (k : String) (red : Option String) (d : Option AttributeValue)
        (amb : Ambient) (req : SupergraphRequest),
      SupergraphSelector.on_request (.QueryVariable k red d) amb req
        = orDefault ((lookupFst req.body.vars k).map
            (fun v => AttributeValue.String (jsonToString v))) d) ∧
    (∀ (k : String) (red : Option String) (d : Option AttributeValue)
        (amb : Ambient) (req : SupergraphRequest),
      SupergraphSelector.on_request (.RequestHeader k red d) amb req
        = orDefault (headerAttr req.headers k) d) ∧
    (∀ (k : String) (red : Option String) (d : Option AttributeValue)
        (amb : Ambient) (req : SupergraphRequest),
      SupergraphSelector.on_request (.RequestContext k red d) amb req
        = orDefault (ctxGetAttr req.context k) d) ∧
    (∀ (k : String) (red : Option String) (d : Option AttributeValue)
        (amb : Ambient) (req : SupergraphRequest),
      SupergraphSelector.on_request (.Baggage k red d) amb req
        = orDefault (lookupFst amb.baggage k) d) ∧
    (∀ (k : String) (red : Option String) (d : Option String)
        (amb : Ambient) (req : SupergraphRequest),
      SupergraphSelector.on_request (.Env k red d) amb req
        = orDefault ((lookupFst amb.env k).map AttributeValue.String)
            (d.map AttributeValue.String)) ∧
    (∀ (k : String) (red : Option String) (d : Option AttributeValue)
        (amb : Ambient) (resp : SupergraphResponse),
      SupergraphSelector.on_response (.ResponseHeader k red d) amb resp
        = orDefault (headerAttr resp.headers k) d) ∧
    (∀ (k : String) (red : Option String) (d : Option AttributeValue)
        (amb : Ambient) (resp : SupergraphResponse),
      SupergraphSelector.on_response (.ResponseContext k red d) amb resp
        = orDefault (ctxGetAttr resp.context k) d) ∧
    (∀ (red : Option String) (d : Option String) (amb : Ambient)
        (req : SubgraphRequest),
      SubgraphSelector.on_request (.SubgraphOperationName .String red d) amb
          req
        = (orDefault req.subgraph_body.operation_name d).map
            AttributeValue.String) ∧
    (∀ (red : Option String) (d : Option String) (amb : Ambient)
        (req : SubgraphRequest),
      SubgraphSelector.on_request (.SubgraphOperationName .Hash red d) amb
          req
        = ((orDefault req.subgraph_body.operation_name d).map sha256Hex).map
            AttributeValue.String) ∧
    (∀ (red : Option String) (d : Option String) (amb : Ambient)
        (req : SubgraphRequest),
      SubgraphSelector.on_request (.SupergraphOperationName .String red d)
          amb req
        = (orDefault (ctxGetString req.context OPERATION_NAME) d).map
            AttributeValue.String) ∧
    (∀ (red : Option String) (d : Option String) (amb : Ambient)
        (req : SubgraphRequest),
      SubgraphSelector.on_request (.SupergraphOperationName .Hash red d) amb
          req
        = ((orDefault (ctxGetString req.context OPERATION_NAME) d).map
            sha256Hex).map AttributeValue.String) ∧
    (∀ (m : QueryMode) (red : Option String) (d : Option String)
        (amb : Ambient) (req : SubgraphRequest),
      SubgraphSelector.on_request (.SupergraphQuery m red d) amb req
        = (orDefault req.supergraph_body.query d).map AttributeValue.String) ∧
    (∀ (m : QueryMode) (red : Option String) (d : Option String)
        (amb : Ambient) (req : SubgraphRequest),
      SubgraphSelector.on_request (.SubgraphQuery m red d) amb req
        = (orDefault req.subgraph_body.query d).map AttributeValue.String) ∧
    (∀ (k : String) (red : Option String) (d : Option AttributeValue)
        (amb : Ambient) (req : SubgraphRequest),
      SubgraphSelector.on_request (.SubgraphQueryVariable k red d) amb req
        = orDefault ((lookupFst req.subgraph_body.vars k).map
            (fun v => AttributeValue.String (jsonToString v))) d) ∧
    (∀ (k : String) (red : Option String) (d : Option AttributeValue)
        (amb : Ambient) (req : SubgraphRequest),
      SubgraphSelector.on_request (.SupergraphQueryVariable k red d) amb req
        = orDefault ((lookupFst req.supergraph_body.vars k).map
            (fun v => AttributeValue.String (jsonToString v))) d) ∧
    (∀ (k : String) (red : Option String) (d : Option AttributeValue)
        (amb : Ambient) (req : SubgraphRequest),
      SubgraphSelector.on_request (.SubgraphRequestHeader k red d) amb req
        = orDefault (headerAttr req.subgraph_headers k) d) ∧
    (∀ (k : String) (red : Option String) (d : Option AttributeValue)
        (amb : Ambient) (req : SubgraphRequest),
      SubgraphSelector.on_request (.SupergraphRequestHeader k red d) amb req
        = orDefault (headerAttr req.supergraph_headers k) d) ∧
    (∀ (k : String) (red : Option String) (d : Option AttributeValue)
        (amb : Ambient) (req : SubgraphRequest),
      SubgraphSelector.on_request (.RequestContext k red d) amb req
        = orDefault (ctxGetAttr req.context k) d) ∧
    (∀ (k : String) (red : Option String) (d : Option AttributeValue)
        (amb : Ambient) (req : SubgraphRequest),
      SubgraphSelector.on_request (.Baggage k red d) amb req
        = orDefault (lookupFst amb.baggage k) d) ∧
    (∀ (k : String) (red : Option String) (d : Option String)
        (amb : Ambient) (req : SubgraphRequest),
      SubgraphSelector.on_request (.Env k red d) amb req
        = orDefault ((lookupFst amb.env k).map AttributeValue.String)
            (d.map AttributeValue.String)) ∧
    (∀ (k : String) (red : Option String) (d : Option AttributeValue)
        (amb : Ambient) (resp : SubgraphResponse),
      SubgraphSelector.on_response (.SubgraphResponseHeader k red d) amb
          resp
        = orDefault (headerAttr resp.headers k) d) ∧
    (∀ (k : String) (red : Option String) (d : Option AttributeValue)
        (amb : Ambient) (resp : SubgraphResponse),
      SubgraphSelector.on_response (.ResponseContext k red d) amb resp
        = orDefault (ctxGetAttr resp.context k) d) ∧
    (∀ (j : Json) (red : Option String) (d : Option AttributeValue)
        (amb : Ambient) (resp : SubgraphResponse),
      SubgraphSelector.on_response
          (.SubgraphResponseBody (fun _ => Except.ok (some j)) red d) amb
          resp
        = orDefault (attrOfJsonScalar j) d) ∧
    (∀ (red : Option String) (d : Option AttributeValue) (amb : Ambient)
        (resp : SubgraphResponse),
      SubgraphSelector.on_response
          (.SubgraphResponseBody (fun _ => Except.error ()) red d) amb resp
        = none) ∧
    (∀ (red : Option String) (d : Option AttributeValue) (amb : Ambient)
        (resp : SubgraphResponse),
      SubgraphSelector.on_response
          (.SubgraphResponseBody (fun _ => Except.ok none) red d) amb resp
        = none) ∧
    (∀ (v : AttributeValue) (d : Option AttributeValue),
      orDefault (some v) d = some v) ∧
    (∀ d : Option AttributeValue, orDefault none d = d) ∧
    (∀ (k : String) (v : HeaderValue) (rest : Headers),
      lookupFst ((k, v) :: rest) k = some v) ∧
    (∀ k : String, lookupFst ([] : Headers) k = none) ∧
    (∀ (k v : String) (rest : Headers),
      headerAttr ((k, ⟨some v⟩) :: rest) k
        = some (AttributeValue.String v)) ∧
    (∀ k : String, headerAttr [] k = none) ∧
    (∀ (k v : String) (rest : Ctx),
      ctxGetAttr ((k, Json.str v) :: rest) k
        = some (AttributeValue.String v)) ∧
    (∀ k : String, ctxGetAttr [] k = none) ∧
    (∀ (k v : String) (rest : Ctx),
      ctxGetString ((k, Json.str v) :: rest) k = some v) ∧
    (∀ k : String, ctxGetString [] k = none) ∧
    (RouterSelector.on_request
        (.RequestHeader "hk" none (some (AttributeValue.String "dv"))) amb0
        ⟨[("hk", ⟨some "hv"⟩)], []⟩ = some (AttributeValue.String "hv")) ∧
    (RouterSelector.on_request
        (.RequestHeader "hk" none (some (AttributeValue.String "dv"))) amb0
        routerReq0 = some (AttributeValue.String "dv")) ∧
    (RouterSelector.on_request (.RequestHeader "hk" none none) amb0
      routerReq0 = none) :=
  ⟨fun _ _ _ _ _ => rfl, fun _ _ _ _ _ => rfl,
   fun k red d amb req => by
     cases hb : lookupFst amb.baggage k <;>
       simp [RouterSelector.on_request, hb, orDefault],
   fun _ _ _ _ _ => rfl, fun _ _ _ _ _ => rfl,
   fun k red d amb resp => by
     cases hb : lookupFst amb.baggage k <;>
       simp [RouterSelector.on_response, hb, orDefault],
   fun _ _ _ _ => rfl, fun _ _ _ _ => rfl, fun _ _ _ _ _ => rfl,
   fun _ _ _ _ _ => rfl, fun _ _ _ _ _ => rfl, fun _ _ _ _ _ => rfl,
   fun k red d amb req => by
     cases hb : lookupFst amb.baggage k <;>
       simp [SupergraphSelector.on_request, hb, orDefault],
   fun _ _ _ _ _ => rfl, fun _ _ _ _ _ => rfl, fun _ _ _ _ _ => rfl,
   fun _ _ _ _ => rfl, fun _ _ _ _ => rfl, fun _ _ _ _ => rfl,
   fun _ _ _ _ => rfl, fun _ _ _ _ _ => rfl, fun _ _ _ _ _ => rfl,
   fun _ _ _ _ _ => rfl, fun _ _ _ _ _ => rfl, fun _ _ _ _ _ => rfl,
   fun _ _ _ _ _ => rfl, fun _ _ _ _ _ => rfl,
   fun k red d amb req => by
     cases hb : lookupFst amb.baggage k <;>
       simp [SubgraphSelector.on_request, hb, orDefault],
   fun _ _ _ _ _ => rfl, fun _ _ _ _ _ => rfl, fun _ _ _ _ _ => rfl,
   fun _ _ _ _ _ => rfl, fun _ _ _ _ => rfl, fun _ _ _ _ => rfl,
   fun _ _ => rfl, fun _ => rfl,
   fun k v rest => by simp,
   fun _ => rfl,
   fun k v rest => by simp [headerAttr],
   fun _ => rfl,
   fun k v rest => by simp [ctxGetAttr, attrOfJsonScalar],
   fun _ => rfl,
   fun k v rest => by simp [ctxGetString],
   fun _ => rfl,
   by decide, by decide, by decide⟩

/-- C8: evaluation is a pure, read-only projection — in the state-passing
form of every evaluator, every selector hands back the pipeline object
and ambient state unchanged (no mutation), re-evaluating on the state
left by a first evaluation yields the identical output (idempotence under
unchanged ambient state), and the projected result agrees with the plain
evaluator. -/
theorem C8_evaluation_pure_and_idempotent :
    (∀ (s : RouterSelector) (st : RouterRequest × Ambient),
      (RouterSelector.on_request_st s st).2 = st ∧
      (RouterSelector.on_request_st s
          ((RouterSelector.on_request_st s st).2)).1
        = (RouterSelector.on_request_st s st).1 ∧
      (RouterSelector.on_request_st s st).1
        = RouterSelector.on_request s st.2 st.1) ∧
    (∀ (s : RouterSelector) (st : RouterResponse × Ambient),
      (RouterSelector.on_response_st s st).2 = st ∧
      (RouterSelector.on_response_st s
          ((RouterSelector.on_response_st s st).2)).1
        = (RouterSelector.on_response_st s st).1 ∧
      (RouterSelector.on_response_st s st).1
        = RouterSelector.on_response s st.2 st.1) ∧
    (∀ (s : SupergraphSelector) (st : SupergraphRequest × Ambient),
      (SupergraphSelector.on_request_st s st).2 = st ∧
      (SupergraphSelector.on_request_st s
          ((SupergraphSelector.on_request_st s st).2)).1
        = (SupergraphSelector.on_request_st s st).1 ∧
      (SupergraphSelector.on_request_st s st).1
        = SupergraphSelector.on_request s st.2 st.1) ∧
    (∀ (s : SupergraphSelector) (st : SupergraphResponse × Ambient),
      (SupergraphSelector.on_response_st s st).2 = st ∧
      (SupergraphSelector.on_response_st s
          ((SupergraphSelector.on_response_st s st).2)).1
        = (SupergraphSelector.on_response_st s st).1 ∧
      (SupergraphSelector.on_response_st s st).1
        = SupergraphSelector.on_response s st.2 st.1) ∧
    (∀ (s : SubgraphSelector) (st : SubgraphRequest × Ambient),
      (SubgraphSelector.on_request_st s st).2 = st ∧
      (SubgraphSelector.on_request_st s
          ((SubgraphSelector.on_request_st s st).2)).1
        = (SubgraphSelector.on_request_st s st).1 ∧
      (SubgraphSelector.on_request_st s st).1
        = SubgraphSelector.on_request s st.2 st.1) ∧
    (∀ (s : SubgraphSelector) (st : SubgraphResponse × Ambient),
      (SubgraphSelector.on_response_st s st).2 = st ∧
      (SubgraphSelector.on_response_st s
          ((SubgraphSelector.on_response_st s st).2)).1
        = (SubgraphSelector.on_response_st s st).1 ∧
      (SubgraphSelector.on_response_st s st).1
        = SubgraphSelector.on_response s st.2 st.1) :=
  ⟨fun s st => by cases s <;> exact ⟨rfl, rfl, rfl⟩,
   fun s st => by cases s <;> exact ⟨rfl, rfl, rfl⟩,
   fun s st => by cases s <;> exact ⟨rfl, rfl, rfl⟩,
   fun s st => by cases s <;> exact ⟨rfl, rfl, rfl⟩,
   fun s st => by cases s <;> exact ⟨rfl, rfl, rfl⟩,
   fun s st => by cases s <;> exact ⟨rfl, rfl, rfl⟩⟩
